import Mathlib

/-!
Shallow embedding of the BMP280 barometric sensor driver (`src/bmp280.h`).

Machine integers are modelled as `Int` (or `Nat` for unsigned byte-level
data) with explicit two's-complement wrapping at the width of every C
operation that can overflow.  C's arithmetic right shift on a signed value
is floor division by a power of two; C's `int64_t` division truncates
toward zero (`Int.tdiv`).  The I2C transport (`i2c.h`, not part of the
sources) is modelled from the spec as an oracle supplying, per bus
operation, the error code returned by the transport (0 = success) and the
bytes it stores in the caller's buffer on success.
-/

namespace BMP

/-- Wrap an integer into the signed 16-bit range, two's complement. -/
def asInt16 (x : Int) : Int := (x + 32768) % 65536 - 32768

/-- Wrap an integer into the signed 32-bit range, two's complement. -/
def asInt32 (x : Int) : Int := (x + 2147483648) % 4294967296 - 2147483648

/-- Wrap an integer into the signed 64-bit range, two's complement. -/
def asInt64 (x : Int) : Int :=
  (x + 9223372036854775808) % 18446744073709551616 - 9223372036854775808

/-- Reduce an integer to the unsigned 32-bit range (C conversion to `uint32_t`). -/
def asUInt32 (x : Int) : Int := x % 4294967296

/-- C `int32_t` addition (wrapping). -/
def add32 (a b : Int) : Int := asInt32 (a + b)

/-- C `int32_t` subtraction (wrapping). -/
def sub32 (a b : Int) : Int := asInt32 (a - b)

/-- C `int32_t` multiplication (wrapping). -/
def mul32 (a b : Int) : Int := asInt32 (a * b)

/-- C `int32_t` left shift (wrapping). -/
def shl32 (a : Int) (n : Nat) : Int := asInt32 (a * 2 ^ n)

/-- Arithmetic right shift of a signed value: floor division by a power of
two.  A value already inside the width's range stays inside it, so no
wrapping is needed. -/
def asr (a : Int) (n : Nat) : Int := Int.ediv a (2 ^ n)

/-- C `int64_t` addition (wrapping). -/
def add64 (a b : Int) : Int := asInt64 (a + b)

/-- C `int64_t` subtraction (wrapping). -/
def sub64 (a b : Int) : Int := asInt64 (a - b)

/-- C `int64_t` multiplication (wrapping). -/
def mul64 (a b : Int) : Int := asInt64 (a * b)

/-- C `int64_t` left shift (wrapping). -/
def shl64 (a : Int) (n : Nat) : Int := asInt64 (a * 2 ^ n)

/-- C `int64_t` division: truncation toward zero, wrapped (the only
overflowing case being `INT64_MIN / -1`). -/
def tdiv64 (a b : Int) : Int := asInt64 (Int.tdiv a b)

/-- Driver state: the `BMP280` class fields of `src/bmp280.h` (lines 40-52).
`T1` and `P1` are `uint16_t`, the other calibration words `int16_t`; the
formulas cast them to `int32_t`/`int64_t` immediately, so each field is
modelled by its mathematical value. -/
structure BMP280 where
  T1 : Int
  T2 : Int
  T3 : Int
  P1 : Int
  P2 : Int
  P3 : Int
  P4 : Int
  P5 : Int
  P6 : Int
  P7 : Int
  P8 : Int
  P9 : Int
  D : Int
  Error : Nat
  RawTemp : Int
  FineTemp : Int
  Temperature : Int
  RawPress : Int
  Pressure : Int
deriving Repr, DecidableEq

/-- `BMP280::DefaultCalib` (lines 57-70): set the documented default
calibration constants. -/
def defaultCalib (s : BMP280) : BMP280 :=
  { s with
    T1 := 27504, T2 := 26435, T3 := -1000,
    P1 := 36477, P2 := -10685, P3 := 3024, P4 := 2855, P5 := 140,
    P6 := -7, P7 := 15500, P8 := -14600, P9 := 6000, D := 0 }

/-- Modelled from the spec: outcome of a one-byte I2C register read
(`I2C_Read`, declared in `i2c.h` which is not among the sources; spec
section 6 gives `Read(deviceAddress, register, buffer, length) -> Error`).
`e` is the transport's error code (0 = success) and `b` the byte stored in
the caller's buffer when the read succeeds. -/
structure ByteRead where
  e : Nat
  b : Nat
deriving Repr, DecidableEq

/-- `BMP280::ReadBusy` (lines 83-86): read the status register, store the
transport's code in `Error` and propagate it when non-zero; otherwise
return `(Status & 0x09) == 0` (1 when the masked status is zero, 0 when it
is non-zero). -/
def readBusy (s : BMP280) (r : ByteRead) : BMP280 × Nat :=
  let s1 := { s with Error := r.e }
  if r.e ≠ 0 then (s1, r.e)
  else (s1, if r.b &&& 0x09 = 0 then 1 else 0)

/-- Trace of one `WaitReady` run: the returned code, the number of status
polls (`ReadBusy` calls) performed, and the `vTaskDelay` sleep durations
in order. -/
structure WaitTrace where
  ret : Nat
  polls : Nat
  sleeps : List Nat
deriving Repr, DecidableEq

/-- Poll loop of `BMP280::WaitReady` (lines 90-94): while fuel remains,
call `ReadBusy` on the next status read; a result greater than 1 is
returned as-is, a result of 0 returns success, a result of 1 sleeps 1 ms
and retries; exhausted fuel returns `0xFF`.  The bus oracle `bus` gives
the transport outcome of the `k`-th status read. -/
def waitReadyGo (bus : Nat → ByteRead) (s : BMP280) (i : Nat) : Nat → BMP280 × WaitTrace
  | 0 => (s, ⟨0xFF, 0, []⟩)
  | n + 1 =>
    let p := readBusy s (bus i)
    if p.2 > 1 then (p.1, ⟨p.2, 1, []⟩)
    else if p.2 = 0 then (p.1, ⟨0, 1, []⟩)
    else
      let rest := waitReadyGo bus p.1 (i + 1) n
      (rest.1, ⟨rest.2.ret, rest.2.polls + 1, 1 :: rest.2.sleeps⟩)

/-- `BMP280::WaitReady` (lines 88-94): initial settle sleep of `wait` ms,
then the poll loop with `timeout` attempts (defaults 20 and 30 at the C
call sites). -/
def waitReady (bus : Nat → ByteRead) (s : BMP280) (timeout wait : Nat) : BMP280 × WaitTrace :=
  let r := waitReadyGo bus s 0 timeout
  (r.1, ⟨r.2.ret, r.2.polls, wait :: r.2.sleeps⟩)

/-- `BMP280::Trigger` (lines 96-98): write 0x00 to the config register and
0x55 to the control register; the first failing write aborts.  `e1`, `e2`
are the transport codes of the two writes; the result also counts how many
bus writes were performed. -/
def trigger (s : BMP280) (e1 e2 : Nat) : BMP280 × Nat × Nat :=
  if e1 ≠ 0 then ({ s with Error := e1 }, e1, 1)
  else ({ s with Error := e2 }, e2, 2)

/-- Modelled from the spec: outcome of a 3-byte burst I2C read
(`I2C_Read` with length 3; `i2c.h` is not among the sources).  `e` is the
transport's error code; on success `b0`, `b1`, `b2` are the bytes stored
at buffer offsets 0, 1, 2 (the device sends MSB first), and on failure the
buffer is left as the caller initialized it. -/
structure BurstRead3 where
  e : Nat
  b0 : Nat
  b1 : Nat
  b2 : Nat
deriving Repr, DecidableEq

/-- Raw sample decoding of `ReadRawPress`/`ReadRawTemp` (lines 103-104,
110-111): the 3 received bytes land in the low 3 bytes of a zeroed
little-endian `int32_t`, giving the non-negative pattern
`v = b0 + (b1 << 8) + (b2 << 16)`; the C expression
`((v<<16)&0xFF0000) | (v&0x00FF00) | ((v>>16)&0x0000FF)` then swaps the
bytes and the result is shifted right by 4.  All intermediate values are
non-negative, so the `int32_t` bit patterns are computed in `Nat`, with
the overflowing `v<<16` wrapped at 2^32 explicitly. -/
def rawDecode (b0 b1 b2 : Nat) : Nat :=
  let v := b0 + 256 * b1 + 65536 * b2
  let w := (((v <<< 16) % 4294967296) &&& 0xFF0000) ||| (v &&& 0xFF00) ||| ((v >>> 16) &&& 0xFF)
  w >>> 4

/-- `BMP280::ReadRawPress` (lines 100-105): zero `RawPress`, issue the
3-byte read, propagate a transport failure, otherwise decode. -/
def readRawPress (s : BMP280) (r : BurstRead3) : BMP280 × Nat :=
  let s1 := { s with RawPress := 0, Error := r.e }
  if r.e ≠ 0 then (s1, r.e)
  else ({ s1 with RawPress := (rawDecode r.b0 r.b1 r.b2 : Int) }, 0)

/-- `BMP280::ReadRawTemp` (lines 107-112): zero `RawTemp`, issue the
3-byte read, propagate a transport failure, otherwise decode. -/
def readRawTemp (s : BMP280) (r : BurstRead3) : BMP280 × Nat :=
  let s1 := { s with RawTemp := 0, Error := r.e }
  if r.e ≠ 0 then (s1, r.e)
  else ({ s1 with RawTemp := (rawDecode r.b0 r.b1 r.b2 : Int) }, 0)

/-- `BMP280::CalcTemperature` (lines 121-127), 32-bit fixed point; the
final store truncates to the `int16_t` field `Temperature`. -/
def calcTemperature (s : BMP280) : BMP280 :=
  let var1 := asr (mul32 (sub32 (asr s.RawTemp 3) (shl32 s.T1 1)) s.T2) 11
  let var2 := asr (mul32 (asr (mul32 (sub32 (asr s.RawTemp 4) s.T1) (sub32 (asr s.RawTemp 4) s.T1)) 12) s.T3) 14
  { s with
    FineTemp := add32 var1 var2,
    Temperature := asInt16 (asr (add32 (add32 var1 var2) 256) 9) }

/-- Final value of `var1` in `BMP280::CalcPressure` (lines 131, 135-136),
the term tested against zero and used as the division's denominator. -/
def pressVar1 (s : BMP280) : Int :=
  let v := sub64 s.FineTemp 128000
  let a := add64 (asr (mul64 (mul64 v v) s.P3) 8) (shl64 (mul64 v s.P2) 12)
  asr (mul64 (add64 (shl64 1 47) a) s.P1) 33

/-- Final value of `var2` in `BMP280::CalcPressure` (lines 131-134). -/
def pressVar2 (s : BMP280) : Int :=
  let v := sub64 s.FineTemp 128000
  add64 (add64 (mul64 (mul64 v v) s.P6) (shl64 (mul64 v s.P5) 17)) (shl64 s.P4 35)

/-- `BMP280::CalcPressure` (lines 129-144), 64-bit fixed point with the
documented zero guard on `var1`; the final store reduces to the
`uint32_t` field `Pressure`. -/
def calcPressure (s : BMP280) : BMP280 :=
  let var1 := pressVar1 s
  let var2 := pressVar2 s
  if var1 = 0 then { s with Pressure := 0 }
  else
    let p0 := sub64 1048576 s.RawPress
    let p1 := tdiv64 (mul64 (sub64 (shl64 p0 31) var2) 3125) var1
    let v1 := asr (mul64 (mul64 s.P9 (asr p1 13)) (asr p1 13)) 25
    let v2 := asr (mul64 s.P8 p1) 19
    let p2 := add64 (asr (add64 (add64 p1 v1) v2) 8) (shl64 s.P7 4)
    { s with Pressure := asUInt32 (asr (add64 p2 32) 6) }

/-- Division guarded against a zero denominator. -/
def checkedDiv (a b : Int) : Option Int :=
  if b = 0 then none else some (tdiv64 a b)

/-- `BMP280::CalcPressure` with its single division routed through
`checkedDiv`: the run is aborted (`none`) if a division by zero would be
performed. -/
def calcPressureChecked (s : BMP280) : Option BMP280 :=
  let var1 := pressVar1 s
  let var2 := pressVar2 s
  if var1 = 0 then some { s with Pressure := 0 }
  else
    let p0 := sub64 1048576 s.RawPress
    match checkedDiv (mul64 (sub64 (shl64 p0 31) var2) 3125) var1 with
    | none => none
    | some p1 =>
      let v1 := asr (mul64 (mul64 s.P9 (asr p1 13)) (asr p1 13)) 25
      let v2 := asr (mul64 s.P8 p1) 19
      let p2 := add64 (asr (add64 (add64 p1 v1) v2) 8) (shl64 s.P7 4)
      some { s with Pressure := asUInt32 (asr (add64 p2 32) 6) }

/-- Spec-side temperature formula, term `var1` (claim C5 / spec section
4.3 and 8), with the documented default calibration constants T1=27504,
T2=26435 plugged in; 32-bit fixed point. -/
def refTempVar1 (raw : Int) : Int :=
  asr (mul32 (sub32 (asr raw 3) (shl32 27504 1)) 26435) 11

/-- Spec-side temperature formula, term `var2`, with the default constants
T1=27504, T3=-1000; 32-bit fixed point. -/
def refTempVar2 (raw : Int) : Int :=
  asr (mul32 (asr (mul32 (sub32 (asr raw 4) 27504) (sub32 (asr raw 4) 27504)) 12) (-1000)) 14

/-- Spec-side fine temperature: `FineTemp = var1 + var2`. -/
def refFineTemp (raw : Int) : Int := add32 (refTempVar1 raw) (refTempVar2 raw)

/-- Spec-side output temperature: `Temperature = (FineTemp + 256) >> 9`
in 0.1 degC units (no 16-bit truncation appears in the spec formula). -/
def refTemperature (raw : Int) : Int := asr (add32 (refFineTemp raw) 256) 9

/-- Bus oracle whose every status read succeeds with status byte 0x00:
the busy mask `0x09` reads zero, i.e. the device reports ready. -/
def busAllReady : Nat → ByteRead := fun _ => ⟨0, 0x00⟩

/-- Bus oracle whose every status read succeeds with status byte 0x08:
the conversion-in-progress bit is set, i.e. the device reports busy. -/
def busAllBusy : Nat → ByteRead := fun _ => ⟨0, 0x08⟩

/-- Bus oracle whose first status read fails with transport error code 1
and whose later status reads succeed with the busy status byte 0x08. -/
def busPollErrOne : Nat → ByteRead := fun i => if i = 0 then ⟨1, 0⟩ else ⟨0, 0x08⟩

/-- A concrete driver state: default calibration constants, all
measurement fields zero. -/
def s0 : BMP280 :=
  ⟨27504, 26435, -1000, 36477, -10685, 3024, 2855, 140, -7, 15500, -14600, 6000, 0,
   0, 0, 0, 0, 0, 0⟩

/-- Bus oracle whose every status read fails with transport error code 2. -/
def busErrTwo : Nat → ByteRead := fun _ => ⟨2, 0⟩

/-- A concrete driver state with calibration word `P1` zero, which drives
the pressure formula's `var1` to exactly zero. -/
def sZeroP1 : BMP280 := { s0 with P1 := 0 }


/-! Helper lemmas: bit-level facts about the byte masks of the raw-sample
decode, and range facts about the wrapped machine-integer operations. -/

theorem and255_eq_mod (x : Nat) : x &&& 255 = x % 256 := by
  rw [show (255 : Nat) = 2 ^ 8 - 1 from rfl, Nat.and_pow_two_sub_one_eq_mod]

theorem or_eq_add {a b : Nat} (n : Nat) (ha : a % 2 ^ n = 0) (hb : b < 2 ^ n) :
    a ||| b = a + b := by
  obtain ⟨c, rfl⟩ := Nat.dvd_of_mod_eq_zero ha
  exact (Nat.mul_add_lt_is_or hb c).symm

theorem byte_mask (x k : Nat) : x &&& (255 <<< k) = ((x >>> k) % 256) <<< k := by
  apply Nat.eq_of_testBit_eq
  intro i
  have h255 : ∀ j, Nat.testBit 255 j = decide (j < 8) := fun j => by
    rw [show (255 : Nat) = 2 ^ 8 - 1 from rfl, Nat.testBit_two_pow_sub_one]
  have hmod : ∀ y j, Nat.testBit (y % 256) j = (decide (j < 8) && Nat.testBit y j) := fun y j => by
    rw [show (256 : Nat) = 2 ^ 8 from rfl, Nat.testBit_mod_two_pow]
  rcases Nat.lt_or_ge i k with h | h
  · simp [Nat.testBit_and, Nat.testBit_shiftLeft, Nat.not_le.mpr h]
  · simp [Nat.testBit_and, Nat.testBit_shiftLeft, Nat.testBit_shiftRight,
      hmod, h255, h, Nat.add_sub_cancel' h]
    rcases Nat.lt_or_ge (i - k) 8 with h8 | h8
    · simp [h8]
    · simp [h8, Nat.not_lt.mpr h8]

theorem rawDecode_eq {b0 b1 b2 : Nat} (h0 : b0 < 256) (h1 : b1 < 256) (h2 : b2 < 256) :
    rawDecode b0 b1 b2 = ((b0 <<< 16) ||| (b1 <<< 8) ||| b2) >>> 4 := by
  have e16 : (0xFF0000 : Nat) = 255 <<< 16 := rfl
  have e8 : (0xFF00 : Nat) = 255 <<< 8 := rfl
  simp only [rawDecode, e16, e8, byte_mask, and255_eq_mod]
  simp only [Nat.shiftLeft_eq, Nat.shiftRight_eq_div_pow]
  have hv : ∀ x : Nat, x % 256 < 256 := fun x => Nat.mod_lt _ (by decide)
  have hin : ((b0 + 256 * b1 + 65536 * b2) * 2 ^ 16 % 4294967296 / 2 ^ 16 % 256 * 2 ^ 16) |||
      ((b0 + 256 * b1 + 65536 * b2) / 2 ^ 8 % 256 * 2 ^ 8) =
      ((b0 + 256 * b1 + 65536 * b2) * 2 ^ 16 % 4294967296 / 2 ^ 16 % 256 * 2 ^ 16) +
      ((b0 + 256 * b1 + 65536 * b2) / 2 ^ 8 % 256 * 2 ^ 8) :=
    or_eq_add 16 (Nat.mul_mod_left _ _) (by have := hv ((b0 + 256 * b1 + 65536 * b2) / 2 ^ 8); omega)
  rw [hin]
  have hout : (((b0 + 256 * b1 + 65536 * b2) * 2 ^ 16 % 4294967296 / 2 ^ 16 % 256 * 2 ^ 16) +
      ((b0 + 256 * b1 + 65536 * b2) / 2 ^ 8 % 256 * 2 ^ 8)) |||
      ((b0 + 256 * b1 + 65536 * b2) / 2 ^ 16 % 256) =
      (((b0 + 256 * b1 + 65536 * b2) * 2 ^ 16 % 4294967296 / 2 ^ 16 % 256 * 2 ^ 16) +
      ((b0 + 256 * b1 + 65536 * b2) / 2 ^ 8 % 256 * 2 ^ 8)) +
      ((b0 + 256 * b1 + 65536 * b2) / 2 ^ 16 % 256) :=
    or_eq_add 8 (by omega) (hv _)
  rw [hout]
  have hr1 : (b0 * 2 ^ 16) ||| (b1 * 2 ^ 8) = b0 * 2 ^ 16 + b1 * 2 ^ 8 :=
    or_eq_add 16 (Nat.mul_mod_left _ _) (by omega)
  rw [hr1]
  have hr2 : (b0 * 2 ^ 16 + b1 * 2 ^ 8) ||| b2 = b0 * 2 ^ 16 + b1 * 2 ^ 8 + b2 :=
    or_eq_add 8 (by omega) (by omega)
  rw [hr2]
  have t1 : (b0 + 256 * b1 + 65536 * b2) * 2 ^ 16 % 4294967296 / 2 ^ 16 % 256 = b0 := by
    omega
  have t2 : (b0 + 256 * b1 + 65536 * b2) / 2 ^ 8 % 256 = b1 := by omega
  have t3 : (b0 + 256 * b1 + 65536 * b2) / 2 ^ 16 % 256 = b2 := by
    have hq : (b0 + 256 * b1 + 65536 * b2) / 2 ^ 16 = b2 := by omega
    rw [hq]; omega
  rw [t1, t2, t3]

theorem asInt32_lb (x : Int) : -2147483648 ≤ asInt32 x := by
  have h := Int.emod_nonneg (x + 2147483648) (show (4294967296 : Int) ≠ 0 by decide)
  unfold asInt32; omega

theorem asInt32_ub (x : Int) : asInt32 x < 2147483648 := by
  have h := Int.emod_lt_of_pos (x + 2147483648) (show (0 : Int) < 4294967296 by decide)
  unfold asInt32; omega

theorem asInt32_eq {x : Int} (h1 : -2147483648 ≤ x) (h2 : x < 2147483648) : asInt32 x = x := by
  unfold asInt32
  rw [Int.emod_eq_of_lt (by omega) (by omega)]
  omega

theorem asInt16_eq {x : Int} (h1 : -32768 ≤ x) (h2 : x < 32768) : asInt16 x = x := by
  unfold asInt16
  rw [Int.emod_eq_of_lt (by omega) (by omega)]
  omega

theorem asr_range {lo hi a : Int} (n : Nat) (hlo : lo ≤ a) (hhi : a ≤ hi) :
    Int.ediv lo (2 ^ n) ≤ asr a n ∧ asr a n ≤ Int.ediv hi (2 ^ n) := by
  unfold asr
  exact ⟨Int.ediv_le_ediv (by positivity) hlo, Int.ediv_le_ediv (by positivity) hhi⟩

/-! Frame lemmas: which fields each compensation routine writes. -/

theorem calcTemperature_frame (s : BMP280) :
    (calcTemperature s).T1 = s.T1 ∧ (calcTemperature s).T2 = s.T2 ∧
    (calcTemperature s).T3 = s.T3 ∧ (calcTemperature s).P1 = s.P1 ∧
    (calcTemperature s).P2 = s.P2 ∧ (calcTemperature s).P3 = s.P3 ∧
    (calcTemperature s).P4 = s.P4 ∧ (calcTemperature s).P5 = s.P5 ∧
    (calcTemperature s).P6 = s.P6 ∧ (calcTemperature s).P7 = s.P7 ∧
    (calcTemperature s).P8 = s.P8 ∧ (calcTemperature s).P9 = s.P9 ∧
    (calcTemperature s).D = s.D ∧ (calcTemperature s).Error = s.Error ∧
    (calcTemperature s).RawTemp = s.RawTemp ∧ (calcTemperature s).RawPress = s.RawPress ∧
    (calcTemperature s).Pressure = s.Pressure :=
  ⟨rfl, rfl, rfl, rfl, rfl, rfl, rfl, rfl, rfl, rfl, rfl, rfl, rfl, rfl, rfl, rfl, rfl⟩

theorem calcPressure_frame (s : BMP280) :
    (calcPressure s).T1 = s.T1 ∧ (calcPressure s).T2 = s.T2 ∧
    (calcPressure s).T3 = s.T3 ∧ (calcPressure s).P1 = s.P1 ∧
    (calcPressure s).P2 = s.P2 ∧ (calcPressure s).P3 = s.P3 ∧
    (calcPressure s).P4 = s.P4 ∧ (calcPressure s).P5 = s.P5 ∧
    (calcPressure s).P6 = s.P6 ∧ (calcPressure s).P7 = s.P7 ∧
    (calcPressure s).P8 = s.P8 ∧ (calcPressure s).P9 = s.P9 ∧
    (calcPressure s).D = s.D ∧ (calcPressure s).Error = s.Error ∧
    (calcPressure s).RawTemp = s.RawTemp ∧ (calcPressure s).RawPress = s.RawPress ∧
    (calcPressure s).FineTemp = s.FineTemp ∧ (calcPressure s).Temperature = s.Temperature := by
  by_cases h : pressVar1 s = 0 <;> simp [calcPressure, h]

theorem calcTemperature_congr {s t : BMP280} (h0 : s.RawTemp = t.RawTemp)
    (h1 : s.T1 = t.T1) (h2 : s.T2 = t.T2) (h3 : s.T3 = t.T3) :
    (calcTemperature s).FineTemp = (calcTemperature t).FineTemp ∧
    (calcTemperature s).Temperature = (calcTemperature t).Temperature := by
  simp [calcTemperature, h0, h1, h2, h3]

theorem pressVar1_congr {s t : BMP280} (hf : s.FineTemp = t.FineTemp)
    (h1 : s.P1 = t.P1) (h2 : s.P2 = t.P2) (h3 : s.P3 = t.P3) :
    pressVar1 s = pressVar1 t := by
  simp [pressVar1, hf, h1, h2, h3]

theorem pressVar2_congr {s t : BMP280} (hf : s.FineTemp = t.FineTemp)
    (h4 : s.P4 = t.P4) (h5 : s.P5 = t.P5) (h6 : s.P6 = t.P6) :
    pressVar2 s = pressVar2 t := by
  simp [pressVar2, hf, h4, h5, h6]

theorem calcPressure_congr {s t : BMP280} (hf : s.FineTemp = t.FineTemp)
    (hrp : s.RawPress = t.RawPress)
    (h1 : s.P1 = t.P1) (h2 : s.P2 = t.P2) (h3 : s.P3 = t.P3)
    (h4 : s.P4 = t.P4) (h5 : s.P5 = t.P5) (h6 : s.P6 = t.P6)
    (h7 : s.P7 = t.P7) (h8 : s.P8 = t.P8) (h9 : s.P9 = t.P9) :
    (calcPressure s).Pressure = (calcPressure t).Pressure := by
  have e1 : pressVar1 s = pressVar1 t := pressVar1_congr hf h1 h2 h3
  have e2 : pressVar2 s = pressVar2 t := pressVar2_congr hf h4 h5 h6
  by_cases h : pressVar1 t = 0 <;>
    simp [calcPressure, e1, e2, h, hf, hrp, h7, h8, h9]

/-! Claim theorems. -/

/-- Claim C1 (code bug, evaluated at the failing input): a status-register
sequence that always reads 0x00 (masked value zero, device ready) makes
`WaitReady` exhaust its budget and return 0xFF, while a sequence that
always reads 0x08 (masked value non-zero, device busy) makes it return 0
at once: the success condition is inverted with respect to the claim,
because `ReadBusy` returns `(Status & 0x09) == 0`, contradicting its own
comment that 1 means busy. -/
theorem wait_ready_inverted_polarity :
    (waitReady busAllReady s0 20 30).2.ret = 0xFF ∧
    (waitReady busAllBusy s0 20 30).2.ret = 0 := by decide

/-- Claim C2 (code bug, evaluated at the failing input): when every status
poll reports the device busy (masked status non-zero, oracle `busAllBusy`),
`WaitReady` does not perform 20 polls and return the Timeout code 0xFF as
claimed; it returns 0 after a single poll.  The claimed 30 ms settle,
20 polls at 1 ms spacing and 0xFF return do occur, but on the all-ready
sequence instead. -/
theorem wait_ready_busy_returns_success :
    (waitReady busAllBusy s0 20 30).2 = ⟨0, 1, [30]⟩ ∧
    (waitReady busAllReady s0 20 30).2 = ⟨0xFF, 20, 30 :: List.replicate 20 1⟩ := by
  decide

/-- Claim C3 counterexample: a status poll whose transport read fails with
error code 1 does not stop `WaitReady`: the loop's `Err > 1` test treats
the code 1 like a successful poll, a second bus read happens, and the run
returns 0 instead of the bus error code. -/
theorem wait_ready_swallows_error_one :
    (waitReady busPollErrOne s0 20 30).2.ret = 0 ∧
    (waitReady busPollErrOne s0 20 30).2.polls = 2 := by decide

/-- Claim C3 (amended): a failing bus operation stops its step at once and
the error code is returned to the caller, for every non-zero transport
code in `Trigger` (first or second write) and in the raw-sample reads,
and for every transport code greater than 1 in a status poll; a poll
failure with code exactly 1 is not propagated. -/
theorem bus_error_propagation :
    (∀ (s : BMP280) (e1 e2 : Nat), e1 ≠ 0 →
      (trigger s e1 e2).2.1 = e1 ∧ (trigger s e1 e2).2.2 = 1 ∧
      (trigger s e1 e2).1.Error = e1) ∧
    (∀ (s : BMP280) (e2 : Nat),
      (trigger s 0 e2).2.1 = e2 ∧ (trigger s 0 e2).2.2 = 2) ∧
    (∀ (s : BMP280) (r : BurstRead3), r.e ≠ 0 →
      (readRawTemp s r).2 = r.e ∧ (readRawTemp s r).1.Error = r.e ∧
      (readRawPress s r).2 = r.e ∧ (readRawPress s r).1.Error = r.e) ∧
    (∀ (bus : Nat → ByteRead) (s : BMP280) (i fuel : Nat), 2 ≤ (bus i).e →
      (waitReadyGo bus s i (fuel + 1)).2 = ⟨(bus i).e, 1, []⟩) := by
  refine ⟨?_, ?_, ?_, ?_⟩
  · intro s e1 e2 h
    simp [trigger, h]
  · intro s e2
    simp [trigger]
  · intro s r h
    simp [readRawTemp, readRawPress, h]
  · intro bus s i fuel h
    have h0 : (bus i).e ≠ 0 := by omega
    have h1 : 1 < (bus i).e := h
    simp [waitReadyGo, readBusy, h0, h1]

/-- Witness for the amended C3 at concrete inputs: error 7 on the first
trigger write, error 5 on a raw-temperature read, error 2 on the first
status poll. -/
theorem bus_error_propagation_witness :
    (trigger s0 7 0).2.1 = 7 ∧ (trigger s0 7 0).2.2 = 1 ∧
    (readRawTemp s0 ⟨5, 0, 0, 0⟩).2 = 5 ∧
    (waitReadyGo busErrTwo s0 0 20).2 = ⟨2, 1, []⟩ :=
  ⟨(bus_error_propagation.1 s0 7 0 (by decide)).1,
   (bus_error_propagation.1 s0 7 0 (by decide)).2.1,
   (bus_error_propagation.2.2.1 s0 ⟨5, 0, 0, 0⟩ (by decide)).1,
   bus_error_propagation.2.2.2 busErrTwo s0 0 19 (by decide)⟩

/-- Claim C10: the raw-sample readers zero their field before the bus
read, so a failing 3-byte read returns the transport's code with the raw
sample equal to 0 whatever it was before. -/
theorem read_raw_error_clears (s : BMP280) (r : BurstRead3) (he : r.e ≠ 0) :
    (readRawTemp s r).1.RawTemp = 0 ∧ (readRawTemp s r).2 = r.e ∧
    (readRawPress s r).1.RawPress = 0 ∧ (readRawPress s r).2 = r.e := by
  simp [readRawTemp, readRawPress, he]

/-- Witness for C10: a prior state holding raw temperature 12345 is
cleared to 0 by a read failing with code 5. -/
theorem read_raw_error_clears_witness :
    (readRawTemp { s0 with RawTemp := 12345 } ⟨5, 1, 2, 3⟩).1.RawTemp = 0 :=
  (read_raw_error_clears { s0 with RawTemp := 12345 } ⟨5, 1, 2, 3⟩ (by decide)).1

/-- On a successful burst read both raw readers store the decoded sample. -/
theorem readRaw_ok_fields (s : BMP280) (b0 b1 b2 : Nat) :
    (readRawTemp s ⟨0, b0, b1, b2⟩).1.RawTemp = (rawDecode b0 b1 b2 : Int) ∧
    (readRawPress s ⟨0, b0, b1, b2⟩).1.RawPress = (rawDecode b0 b1 b2 : Int) := by
  simp [readRawTemp, readRawPress]

/-- Claim C6: a successful 3-byte burst decodes to the big-endian 24-bit
value right-shifted by 4, for both raw readers. -/
theorem raw_reads_big_endian (s : BMP280) (b0 b1 b2 : Nat)
    (h0 : b0 < 256) (h1 : b1 < 256) (h2 : b2 < 256) :
    (readRawTemp s ⟨0, b0, b1, b2⟩).1.RawTemp
        = ((((b0 <<< 16) ||| (b1 <<< 8) ||| b2) >>> 4 : Nat) : Int) ∧
    (readRawPress s ⟨0, b0, b1, b2⟩).1.RawPress
        = ((((b0 <<< 16) ||| (b1 <<< 8) ||| b2) >>> 4 : Nat) : Int) := by
  have hT := (readRaw_ok_fields s b0 b1 b2).1
  have hP := (readRaw_ok_fields s b0 b1 b2).2
  rw [hT, hP, rawDecode_eq h0 h1 h2]
  exact ⟨rfl, rfl⟩

/-- Witness for C6 at the spec's vector: bytes 0x12 0x34 0x56 decode to
0x12345. -/
theorem raw_reads_big_endian_witness :
    (readRawTemp s0 ⟨0, 0x12, 0x34, 0x56⟩).1.RawTemp = (0x12345 : Int) :=
  ((raw_reads_big_endian s0 0x12 0x34 0x56 (by decide) (by decide) (by decide)).1).trans
    (by decide)

/-- Claim C7 counterexample: the burst 0x80 0x00 0x00 has its 24-bit top
bit set, yet the decoded raw sample is 0x80000 = 524288, a positive value:
no sign extension is performed. -/
theorem raw_not_sign_extended :
    (readRawTemp s0 ⟨0, 0x80, 0x00, 0x00⟩).1.RawTemp = 524288 ∧
    ¬ (readRawTemp s0 ⟨0, 0x80, 0x00, 0x00⟩).1.RawTemp < 0 := by decide

/-- Claim C7 (amended): the raw samples are decoded as unsigned values:
for every 3-byte burst whose 24-bit big-endian value has the top bit set,
the decoded sample is at least 0x80000, hence non-negative, not negative
as claimed. -/
theorem raw_decode_nonneg (s : BMP280) (b0 b1 b2 : Nat)
    (h0 : b0 < 256) (h1 : b1 < 256) (h2 : b2 < 256)
    (htop : 0x800000 ≤ (b0 <<< 16) ||| (b1 <<< 8) ||| b2) :
    0x80000 ≤ (readRawTemp s ⟨0, b0, b1, b2⟩).1.RawTemp ∧
    0x80000 ≤ (readRawPress s ⟨0, b0, b1, b2⟩).1.RawPress := by
  have hge : 0x80000 ≤ ((b0 <<< 16) ||| (b1 <<< 8) ||| b2) >>> 4 := by
    rw [Nat.shiftRight_eq_div_pow]
    omega
  have hT := (readRaw_ok_fields s b0 b1 b2).1
  have hP := (readRaw_ok_fields s b0 b1 b2).2
  rw [hT, hP, rawDecode_eq h0 h1 h2]
  constructor <;> exact_mod_cast hge

/-- Witness for the amended C7: the all-ones burst 0xFF 0xFF 0xFF decodes
to a value at least 0x80000. -/
theorem raw_decode_nonneg_witness :
    0x80000 ≤ (readRawTemp s0 ⟨0, 0xFF, 0xFF, 0xFF⟩).1.RawTemp :=
  (raw_decode_nonneg s0 0xFF 0xFF 0xFF (by decide) (by decide) (by decide)
    (by decide)).1

/-- Claim C4: the checked variant of `CalcPressure` (division by zero
aborts) always succeeds and agrees with `CalcPressure`, and a zero `var1`
yields Pressure = 0 with no division performed. -/
theorem calc_pressure_no_div_by_zero (s : BMP280) :
    calcPressureChecked s = some (calcPressure s) ∧
    (pressVar1 s = 0 → (calcPressure s).Pressure = 0) := by
  by_cases h : pressVar1 s = 0
  · simp [calcPressureChecked, calcPressure, h]
  · simp [calcPressureChecked, calcPressure, checkedDiv, h]

/-- Witness for C4: with calibration word `P1 = 0` the pressure formula's
`var1` is exactly zero and the computed pressure is 0. -/
theorem calc_pressure_no_div_by_zero_witness :
    pressVar1 sZeroP1 = 0 ∧ (calcPressure sZeroP1).Pressure = 0 :=
  ⟨by decide, (calc_pressure_no_div_by_zero sZeroP1).2 (by decide)⟩

/-- The temperature output expression stays inside the `int16_t` range:
each product is wrapped into the `int32_t` range before its arithmetic
shift, so `var1` is within 2^20, `var2` within 2^17, and the final shift
by 9 leaves at most 12 significant bits. -/
theorem temp_out_bound (x y z w : Int) :
    -32768 ≤ asr (add32 (add32 (asr (mul32 x y) 11) (asr (mul32 z w) 14)) 256) 9 ∧
    asr (add32 (add32 (asr (mul32 x y) 11) (asr (mul32 z w) 14)) 256) 9 < 32768 := by
  have ha1 : -2147483648 ≤ mul32 x y := asInt32_lb _
  have ha2 : mul32 x y < 2147483648 := asInt32_ub _
  have hb1 : -2147483648 ≤ mul32 z w := asInt32_lb _
  have hb2 : mul32 z w < 2147483648 := asInt32_ub _
  have r1 := asr_range 11 ha1 (by omega : mul32 x y ≤ 2147483647)
  have r2 := asr_range 14 hb1 (by omega : mul32 z w ≤ 2147483647)
  have c1 : Int.ediv (-2147483648) (2 ^ 11) = -1048576 := by decide
  have c2 : Int.ediv 2147483647 (2 ^ 11) = 1048575 := by decide
  have c3 : Int.ediv (-2147483648) (2 ^ 14) = -131072 := by decide
  have c4 : Int.ediv 2147483647 (2 ^ 14) = 131071 := by decide
  rw [c1, c2] at r1
  rw [c3, c4] at r2
  have e1 : add32 (asr (mul32 x y) 11) (asr (mul32 z w) 14)
      = asr (mul32 x y) 11 + asr (mul32 z w) 14 := asInt32_eq (by omega) (by omega)
  rw [e1]
  have e2 : add32 (asr (mul32 x y) 11 + asr (mul32 z w) 14) 256
      = asr (mul32 x y) 11 + asr (mul32 z w) 14 + 256 := asInt32_eq (by omega) (by omega)
  rw [e2]
  have r3 := asr_range 9
    (show (-1179392 : Int) ≤ asr (mul32 x y) 11 + asr (mul32 z w) 14 + 256 by omega)
    (show asr (mul32 x y) 11 + asr (mul32 z w) 14 + 256 ≤ (1179902 : Int) by omega)
  have c5 : Int.ediv (-1179392) (2 ^ 9) = -2304 := by decide
  have c6 : Int.ediv (1179902 : Int) (2 ^ 9) = 2304 := by decide
  rw [c5, c6] at r3
  omega

/-- Claim C5: with the documented default calibration constants,
`CalcTemperature` reproduces the spec's 32-bit reference formula
bit-for-bit, for every raw temperature: `FineTemp` is `var1 + var2` and
the stored `Temperature` equals `(FineTemp + 256) >> 9` exactly (the
`int16_t` store truncates nothing, because the expression is bounded). -/
theorem calc_temperature_matches_ref (s : BMP280) (raw : Int) :
    (calcTemperature { defaultCalib s with RawTemp := raw }).FineTemp = refFineTemp raw ∧
    (calcTemperature { defaultCalib s with RawTemp := raw }).Temperature
      = refTemperature raw := by
  constructor
  · simp [calcTemperature, defaultCalib, refFineTemp, refTempVar1, refTempVar2]
  · have hb := temp_out_bound (sub32 (asr raw 3) (shl32 27504 1)) 26435
      (asr (mul32 (sub32 (asr raw 4) 27504) (sub32 (asr raw 4) 27504)) 12) (-1000)
    simp only [calcTemperature, defaultCalib, refTemperature, refFineTemp,
      refTempVar1, refTempVar2]
    exact asInt16_eq hb.1 hb.2

/-- Claim C8: the compensation pass `CalcTemperature` then `CalcPressure`
is idempotent: running it a second time from the resulting state, with
the raw samples and calibration untouched, reproduces the same
`Temperature`, `FineTemp` and `Pressure` (the routines are pure functions
of the state, so equal inputs give equal outputs by construction). -/
theorem calc_idempotent (s : BMP280) :
    (calcPressure (calcTemperature (calcPressure (calcTemperature s)))).Temperature
        = (calcPressure (calcTemperature s)).Temperature ∧
    (calcPressure (calcTemperature (calcPressure (calcTemperature s)))).FineTemp
        = (calcPressure (calcTemperature s)).FineTemp ∧
    (calcPressure (calcTemperature (calcPressure (calcTemperature s)))).Pressure
        = (calcPressure (calcTemperature s)).Pressure := by
  obtain ⟨fT1, fT2, fT3, fP1, fP2, fP3, fP4, fP5, fP6, fP7, fP8, fP9, fD, fE, fRT, fRP, fPr⟩ :=
    calcTemperature_frame s
  obtain ⟨gT1, gT2, gT3, gP1, gP2, gP3, gP4, gP5, gP6, gP7, gP8, gP9, gD, gE, gRT, gRP,
      gFT, gTemp⟩ := calcPressure_frame (calcTemperature s)
  obtain ⟨hFT, hTemp⟩ := calcTemperature_congr (gRT.trans fRT) (gT1.trans fT1)
    (gT2.trans fT2) (gT3.trans fT3)
  obtain ⟨jT1, jT2, jT3, jP1, jP2, jP3, jP4, jP5, jP6, jP7, jP8, jP9, jD, jE, jRT, jRP,
      jPr⟩ := calcTemperature_frame (calcPressure (calcTemperature s))
  obtain ⟨iT1, iT2, iT3, iP1, iP2, iP3, iP4, iP5, iP6, iP7, iP8, iP9, iD, iE, iRT, iRP,
      iFT, iTemp⟩ := calcPressure_frame (calcTemperature (calcPressure (calcTemperature s)))
  refine ⟨?_, ?_, ?_⟩
  · rw [iTemp, hTemp, gTemp]
  · rw [iFT, hFT, gFT]
  · exact calcPressure_congr hFT (jRP.trans gRP) (jP1.trans gP1) (jP2.trans gP2)
      (jP3.trans gP3) (jP4.trans gP4) (jP5.trans gP5) (jP6.trans gP6) (jP7.trans gP7)
      (jP8.trans gP8) (jP9.trans gP9)

/-- Claim C9: `CalcTemperature` writes only `FineTemp` and `Temperature`,
`CalcPressure` writes only `Pressure`; the calibration words, the raw
samples and the error field are unchanged by both. -/
theorem calc_modifies_only_outputs (s : BMP280) :
    (calcTemperature s).T1 = s.T1 ∧ (calcTemperature s).T2 = s.T2 ∧
    (calcTemperature s).T3 = s.T3 ∧ (calcTemperature s).P1 = s.P1 ∧
    (calcTemperature s).P2 = s.P2 ∧ (calcTemperature s).P3 = s.P3 ∧
    (calcTemperature s).P4 = s.P4 ∧ (calcTemperature s).P5 = s.P5 ∧
    (calcTemperature s).P6 = s.P6 ∧ (calcTemperature s).P7 = s.P7 ∧
    (calcTemperature s).P8 = s.P8 ∧ (calcTemperature s).P9 = s.P9 ∧
    (calcTemperature s).D = s.D ∧ (calcTemperature s).Error = s.Error ∧
    (calcTemperature s).RawTemp = s.RawTemp ∧ (calcTemperature s).RawPress = s.RawPress ∧
    (calcTemperature s).Pressure = s.Pressure ∧
    (calcPressure s).T1 = s.T1 ∧ (calcPressure s).T2 = s.T2 ∧
    (calcPressure s).T3 = s.T3 ∧ (calcPressure s).P1 = s.P1 ∧
    (calcPressure s).P2 = s.P2 ∧ (calcPressure s).P3 = s.P3 ∧
    (calcPressure s).P4 = s.P4 ∧ (calcPressure s).P5 = s.P5 ∧
    (calcPressure s).P6 = s.P6 ∧ (calcPressure s).P7 = s.P7 ∧
    (calcPressure s).P8 = s.P8 ∧ (calcPressure s).P9 = s.P9 ∧
    (calcPressure s).D = s.D ∧ (calcPressure s).Error = s.Error ∧
    (calcPressure s).RawTemp = s.RawTemp ∧ (calcPressure s).RawPress = s.RawPress ∧
    (calcPressure s).FineTemp = s.FineTemp ∧ (calcPressure s).Temperature = s.Temperature := by
  obtain ⟨a1, a2, a3, a4, a5, a6, a7, a8, a9, a10, a11, a12, a13, a14, a15, a16, a17⟩ :=
    calcTemperature_frame s
  obtain ⟨b1, b2, b3, b4, b5, b6, b7, b8, b9, b10, b11, b12, b13, b14, b15, b16, b17, b18⟩ :=
    calcPressure_frame s
  exact ⟨a1, a2, a3, a4, a5, a6, a7, a8, a9, a10, a11, a12, a13, a14, a15, a16, a17,
    b1, b2, b3, b4, b5, b6, b7, b8, b9, b10, b11, b12, b13, b14, b15, b16, b17, b18⟩

end BMP
